import Mathlib

/-!
Shallow embedding of `src/web/src/App.tsx` of the
digital-blueprint-material-takeoff-tool repository.

The React component `App` keeps all of its data in `useState` hooks; these
become the fields of `AppState`.  Every event handler of the component becomes
a function `AppState → … → AppState`, and the discrete user inputs (button
presses, pointer clicks, dialog interactions) become an `Event` type with a
deterministic transition function `step`.  JavaScript numbers are modelled as
real numbers; the value submitted through the calibration dialog is modelled
by `JSNum`, which also covers `NaN` and the infinities that `parseFloat` can
produce.  The `useEffect` hook that opens the length dialog is modelled by a
wrapper applied after every transition (`applyDialogEffect`), firing exactly
when its dependency values changed.
-/

/-- A point `{x, y}` as stored in `calibrationPoints` (App.tsx line 23) and
`measurementPoints` (line 34). -/
@[ext]
structure Pt where
  x : ℝ
  y : ℝ

noncomputable instance : DecidableEq Pt := fun _ _ => Classical.dec _

/-- Result of `parseFloat` on the calibration text field (App.tsx line 118):
a finite value, `NaN` (for instance from the initial empty string), or one of
the infinities (`parseFloat("Infinity")` is `Infinity`). -/
inductive JSNum where
  | fin (x : ℝ)
  | nan
  | posInf
  | negInf

/-- Source: `isNaN(len)` in the guard on App.tsx line 119. -/
def jsIsNaN : JSNum → Bool
  | .nan => true
  | _ => false

/-- Source: `len <= 0` in the guard on App.tsx line 119, under IEEE
comparison: `NaN <= 0` is false, `-Infinity <= 0` is true, and
`Infinity <= 0` is false. -/
noncomputable def jsLeZero : JSNum → Bool
  | .fin x => if x ≤ 0 then true else false
  | .nan => false
  | .posInf => false
  | .negInf => true

/-- Source: `Math.sqrt((p2.x - p1.x) ** 2 + (p2.y - p1.y) ** 2)`
(App.tsx lines 98, 125 and 248). -/
noncomputable def pixelDist (p1 p2 : Pt) : ℝ :=
  Real.sqrt ((p2.x - p1.x) ^ 2 + (p2.y - p1.y) ^ 2)

/-- One entry of the `measurements` array (App.tsx line 35): the recorded path
together with the stored `length`, which `handleMeasurementDoubleClick`
computes in real-world units using the scale live at finalization time
(line 99) and which is never recomputed afterwards. -/
structure Measurement where
  points : List Pt
  length : ℝ

/-- The component state of `App` (App.tsx lines 20–35).  Page navigation state
(`numPages`, `pageNumber`) is omitted: none of the handlers modelled here read
or write it.  `scale` (line 26, commented "pixels per unit") is the single
`number | null` state that the calibration submit installs and that the zoom
buttons mutate.  `realLength` holds the `parseFloat` image of the dialog text
field; the initial empty string parses to `NaN`.  `pdfFile` records whether a
`File` object has been stored; `uploadOpen` is the `open` flag of the upload
dialog. -/
@[ext]
structure AppState where
  calibrationMode : Bool
  calibrationPoints : List Pt
  calibrationDialogOpen : Bool
  realLength : JSNum
  scale : Option ℝ
  calibrationError : String
  uploadOpen : Bool
  pdfFile : Bool
  pdfUrl : Option String
  measuring : Bool
  measurementPoints : List Pt
  measurements : List Measurement

/-- Source: `const scaleFactor = scale || 1.0` (App.tsx line 107); both
`null` and `0` are falsy, so they fall back to `1.0`.  (`NaN` and the
infinities never reach `scale`: the submit guard rejects `NaN` and
non-positive lengths, and a `+Infinity` length installs `0`.) -/
noncomputable def scaleFactor (s : AppState) : ℝ :=
  match s.scale with
  | none => 1
  | some x => if x = 0 then 1 else x

/-- JavaScript truthiness of `scale` as used in the `!scale` guards
(App.tsx lines 83, 92, 169) and in `disabled={!scale}` (line 294):
`null` and `0` are falsy, any other real value is truthy. -/
noncomputable def scaleTruthy : Option ℝ → Bool
  | none => false
  | some x => if x = 0 then false else true

/-- Source: `handlePdfClick` (App.tsx lines 73–79): bail out unless
calibration mode is on, then append the click position divided by
`scaleFactor` to `calibrationPoints`. -/
noncomputable def handlePdfClick (s : AppState) (clientX clientY rectLeft rectTop : ℝ) :
    AppState :=
  if s.calibrationMode = false then s
  else
    { s with
        calibrationPoints :=
          s.calibrationPoints ++
            [⟨(clientX - rectLeft) / scaleFactor s, (clientY - rectTop) / scaleFactor s⟩] }

/-- Source: `handleMeasurementClick` (App.tsx lines 82–88): bail out when
`!measuring || !scale`, then append the click position divided by
`scaleFactor` to `measurementPoints`. -/
noncomputable def handleMeasurementClick (s : AppState) (clientX clientY rectLeft rectTop : ℝ) :
    AppState :=
  if s.measuring = false ∨ scaleTruthy s.scale = false then s
  else
    { s with
        measurementPoints :=
          s.measurementPoints ++
            [⟨(clientX - rectLeft) / scaleFactor s, (clientY - rectTop) / scaleFactor s⟩] }

/-- The accumulation loop of `handleMeasurementDoubleClick` (App.tsx
lines 94–100), also repeated verbatim for the in-progress label
(lines 243–252): each consecutive pixel distance is divided by `scale` and
added to the running total. -/
noncomputable def measuredTotal : List Pt → ℝ → ℝ
  | p1 :: p2 :: rest, sc => pixelDist p1 p2 / sc + measuredTotal (p2 :: rest) sc
  | _, _ => 0

/-- The pixel length of a path: the sum of consecutive Euclidean distances,
before any division by the scale. -/
noncomputable def pathPixelLength : List Pt → ℝ
  | p1 :: p2 :: rest => pixelDist p1 p2 + pathPixelLength (p2 :: rest)
  | _ => 0

/-- Source: `handleMeasurementDoubleClick` (App.tsx lines 91–104): bail out
when `!measuring || !scale || measurementPoints.length < 2`; otherwise append
`{points: [...measurementPoints], length: total}` to `measurements`, clear
`measurementPoints` and leave measuring mode. -/
noncomputable def handleMeasurementDoubleClick (s : AppState) : AppState :=
  match s.scale with
  | none => s
  | some sc =>
    if s.measuring = false ∨ sc = 0 ∨ s.measurementPoints.length < 2 then s
    else
      { s with
          measurements :=
            s.measurements ++ [⟨s.measurementPoints, measuredTotal s.measurementPoints sc⟩],
          measurementPoints := [],
          measuring := false }

/-- Outcome of `handleCalibrationSubmit` (App.tsx lines 117–132). -/
inductive SubmitOutcome where
  | invalidLength
  | crash
  | committed (newScale : ℝ)

/-- Source: `pixelDist / len` (App.tsx line 126) for a finite, non-negative
pixel distance.  A finite divisor gives ordinary division; division by
`+Infinity` or `-Infinity` gives `0` under IEEE arithmetic.  The `nan` branch
is unreachable here because `handleCalibrationSubmit` rejects `NaN` before
dividing, as is a zero finite divisor (rejected by `len <= 0`). -/
noncomputable def jsDivScale (d : ℝ) (len : JSNum) : ℝ :=
  match len with
  | .fin y => d / y
  | .posInf => 0
  | .negInf => 0
  | .nan => 0

/-- Control flow of `handleCalibrationSubmit` (App.tsx lines 117–132):
first the guard `isNaN(len) || len <= 0` reports a validation error; then
`const [p1, p2] = calibrationPoints` destructures the first two pending
points — if fewer than two exist, `p2.x` (or `p1.x`) dereferences `undefined`
and the handler throws a `TypeError` before any state update; otherwise the
new scale `pixelDist / len` is committed. -/
noncomputable def submitOutcome (pts : List Pt) (len : JSNum) : SubmitOutcome :=
  if jsIsNaN len || jsLeZero len then .invalidLength
  else
    match pts[0]?, pts[1]? with
    | some p1, some p2 => .committed (jsDivScale (pixelDist p1 p2) len)
    | _, _ => .crash

/-- The discrete user inputs handled by the component. -/
inductive Event where
  | zoomIn
  | zoomOut
  | openUpload
  | closeUpload
  | dropPdf (url : String)
  | chooseFile (url : String)
  | toggleCalibration
  | toggleMeasuring
  | clickPdf (clientX clientY rectLeft rectTop : ℝ)
  | dblClickPdf
  | setRealLength (v : JSNum)
  | submitCalibration
  | closeCalibrationDialog

/-- Source: `handleZoomIn` (App.tsx line 45):
`setScale((prev) => Math.min((prev ?? 1.0) + 0.2, 3))`. -/
noncomputable def zoomInScale (prev : Option ℝ) : ℝ := min (prev.getD 1 + 0.2) 3

/-- Source: `handleZoomOut` (App.tsx line 46):
`setScale((prev) => Math.max((prev ?? 1.0) - 0.2, 0.5))`. -/
noncomputable def zoomOutScale (prev : Option ℝ) : ℝ := max (prev.getD 1 - 0.2) 0.5

/-- The state updates performed by each event handler, before the dialog
`useEffect` runs.  Click routing follows App.tsx lines 324–325
(`onClick={calibrationMode ? handlePdfClick : measuring ?
handleMeasurementClick : undefined}` and `onDoubleClick={measuring ?
handleMeasurementDoubleClick : undefined}`); the Measure button carries
`disabled={!scale}` (line 294); `onDrop` (lines 49–55) and `handleFileChange`
(lines 63–70) require the upload dialog to be open because the drop zone and
the file input are rendered inside it; the calibration dialog widgets
(lines 341–360) require `calibrationDialogOpen`. -/
noncomputable def coreStep (s : AppState) : Event → AppState
  | .zoomIn => { s with scale := some (zoomInScale s.scale) }
  | .zoomOut => { s with scale := some (zoomOutScale s.scale) }
  | .openUpload => { s with uploadOpen := true }
  | .closeUpload => { s with uploadOpen := false }
  | .dropPdf url =>
      if s.uploadOpen then { s with pdfFile := true, pdfUrl := some url, uploadOpen := false }
      else s
  | .chooseFile url =>
      if s.uploadOpen then { s with pdfFile := true, pdfUrl := some url, uploadOpen := false }
      else s
  | .toggleCalibration =>
      { s with calibrationMode := !s.calibrationMode, calibrationPoints := [],
               calibrationError := "" }
  | .toggleMeasuring =>
      if scaleTruthy s.scale then { s with measuring := !s.measuring, measurementPoints := [] }
      else s
  | .clickPdf cX cY rL rT =>
      if s.calibrationMode then handlePdfClick s cX cY rL rT
      else if s.measuring then handleMeasurementClick s cX cY rL rT
      else s
  | .dblClickPdf => if s.measuring then handleMeasurementDoubleClick s else s
  | .setRealLength v => if s.calibrationDialogOpen then { s with realLength := v } else s
  | .submitCalibration =>
      if s.calibrationDialogOpen then
        match submitOutcome s.calibrationPoints s.realLength with
        | .invalidLength => { s with calibrationError := "Please enter a valid positive number." }
        | .crash => s
        | .committed c =>
            { s with scale := some c, calibrationDialogOpen := false, calibrationMode := false,
                     calibrationPoints := [], realLength := .nan, calibrationError := "" }
      else s
  | .closeCalibrationDialog => { s with calibrationDialogOpen := false }

/-- The `useEffect` at App.tsx lines 110–114: after a state update in which
the dependencies `calibrationPoints` or `calibrationMode` changed, open the
calibration dialog when calibration mode is on and exactly two points are
pending.  (In the source every write to a dependency replaces it by a fresh
value, so comparing dependency values is equivalent to React's reference
comparison for every transition modelled here.) -/
noncomputable def applyDialogEffect (old next : AppState) : AppState :=
  if (next.calibrationPoints ≠ old.calibrationPoints ∨
        next.calibrationMode ≠ old.calibrationMode)
      ∧ next.calibrationMode = true ∧ next.calibrationPoints.length = 2
  then { next with calibrationDialogOpen := true }
  else next

/-- One full event-handling turn: the handler's updates followed by the
dialog-opening effect. -/
noncomputable def step (s : AppState) (e : Event) : AppState :=
  applyDialogEffect s (coreStep s e)

/-- Source: the `samplePDF` url (App.tsx lines 16–17). -/
def samplePDF : String :=
  "https://www.w3.org/WAI/ER/tests/xhtml/testfiles/resources/pdf/dummy.pdf"

/-- The initial values of the `useState` hooks (App.tsx lines 20–35). -/
noncomputable def initState : AppState :=
  { calibrationMode := false, calibrationPoints := [], calibrationDialogOpen := false,
    realLength := .nan, scale := none, calibrationError := "",
    uploadOpen := false, pdfFile := false, pdfUrl := some samplePDF,
    measuring := false, measurementPoints := [], measurements := [] }

/-- Run a sequence of user events from a state. -/
noncomputable def runTrace (s : AppState) (es : List Event) : AppState :=
  es.foldl step s

/-- The data `renderMeasurementOverlay` draws (App.tsx lines 168–257):
the completed measurements (each labelled with its stored `length`,
line 201), the in-progress points, and the in-progress running label
(recomputed from the points on every render, lines 243–252). -/
structure OverlayData where
  completed : List Measurement
  inProgressPoints : List Pt
  inProgressLabel : Option ℝ

/-- Source: `renderMeasurementOverlay` (App.tsx lines 168–257): returns
`null` when `!scale` (line 169); otherwise draws the overlay data. -/
noncomputable def renderMeasurementOverlay (s : AppState) : Option OverlayData :=
  match s.scale with
  | none => none
  | some sc =>
    if sc = 0 then none
    else
      some { completed := s.measurements,
             inProgressPoints := s.measurementPoints,
             inProgressLabel :=
               if 1 < s.measurementPoints.length then
                 some (measuredTotal s.measurementPoints sc)
               else none }

/-- The value shown in a completed measurement's label (App.tsx line 201:
`{m.length.toFixed(2)} units`): the stored `length` field. -/
noncomputable def displayedLength (m : Measurement) : ℝ := m.length

/-- Screen-to-document transform as performed by the click handlers
(App.tsx lines 76–77): subtract the container origin, divide by the scale
factor. -/
noncomputable def toDocumentSpace (p origin : Pt) (zoom : ℝ) : Pt :=
  ⟨(p.x - origin.x) / zoom, (p.y - origin.y) / zoom⟩

/-- Document-to-screen transform as performed by the overlay renderers
(App.tsx lines 137, 144–147, 181–184): multiply by the scale factor; the
overlay svg is absolutely positioned at the container origin, so on screen
the point sits at the origin plus the scaled coordinates. -/
noncomputable def documentToScreen (d origin : Pt) (zoom : ℝ) : Pt :=
  ⟨d.x * zoom + origin.x, d.y * zoom + origin.y⟩

/-! ### Basic evaluation lemmas -/

/-- Evaluate `pixelDist` at concrete points whose squared distance is a
perfect square. -/
lemma pixelDist_eval {px py qx qy r : ℝ} (hr : 0 ≤ r)
    (h : (qx - px) ^ 2 + (qy - py) ^ 2 = r ^ 2) :
    pixelDist ⟨px, py⟩ ⟨qx, qy⟩ = r := by
  simp only [pixelDist]
  rw [h, Real.sqrt_sq hr]

lemma append_singleton_ne (l : List Pt) (p : Pt) : l ++ [p] ≠ l := by
  intro h
  have := congrArg List.length h
  simp at this

/-- The accumulation loop of the double-click finalizer computes the pixel
path length divided by the scale (for real division this needs no side
condition on the scale). -/
lemma measuredTotal_eq_div (pts : List Pt) (sc : ℝ) :
    measuredTotal pts sc = pathPixelLength pts / sc := by
  induction pts with
  | nil => simp [measuredTotal, pathPixelLength]
  | cons p rest ih =>
    cases rest with
    | nil => simp [measuredTotal, pathPixelLength]
    | cons q r =>
      simp only [measuredTotal, pathPixelLength]
      rw [ih, add_div]

/-! ### How each event transforms the state -/

lemma step_toggleCalibration (s : AppState) :
    step s Event.toggleCalibration =
      { s with calibrationMode := !s.calibrationMode, calibrationPoints := [],
               calibrationError := "" } := by
  simp [step, coreStep, applyDialogEffect]

lemma step_zoomIn (s : AppState) :
    step s Event.zoomIn = { s with scale := some (zoomInScale s.scale) } := by
  simp [step, coreStep, applyDialogEffect]

lemma step_zoomOut (s : AppState) :
    step s Event.zoomOut = { s with scale := some (zoomOutScale s.scale) } := by
  simp [step, coreStep, applyDialogEffect]

lemma step_openUpload (s : AppState) :
    step s Event.openUpload = { s with uploadOpen := true } := by
  simp [step, coreStep, applyDialogEffect]

lemma step_dropPdf (s : AppState) (url : String) (h : s.uploadOpen = true) :
    step s (Event.dropPdf url) =
      { s with pdfFile := true, pdfUrl := some url, uploadOpen := false } := by
  simp [step, coreStep, applyDialogEffect, h]

lemma step_toggleMeasuring (s : AppState) (h : scaleTruthy s.scale = true) :
    step s Event.toggleMeasuring =
      { s with measuring := !s.measuring, measurementPoints := [] } := by
  simp [step, coreStep, applyDialogEffect, h]

lemma step_setRealLength (s : AppState) (v : JSNum) (h : s.calibrationDialogOpen = true) :
    step s (Event.setRealLength v) = { s with realLength := v } := by
  simp [step, coreStep, applyDialogEffect, h]

lemma step_closeCalibrationDialog (s : AppState) :
    step s Event.closeCalibrationDialog = { s with calibrationDialogOpen := false } := by
  simp [step, coreStep, applyDialogEffect]

/-- A calibration-mode click that does not bring the pending count to two
just appends the converted point. -/
lemma step_clickPdf_cal (s : AppState) (cX cY rL rT : ℝ)
    (h : s.calibrationMode = true) (hn : s.calibrationPoints.length ≠ 1) :
    step s (Event.clickPdf cX cY rL rT) =
      { s with calibrationPoints :=
          s.calibrationPoints ++
            [⟨(cX - rL) / scaleFactor s, (cY - rT) / scaleFactor s⟩] } := by
  simp [step, coreStep, applyDialogEffect, handlePdfClick, h, hn]

/-- A calibration-mode click that brings the pending count to exactly two
also opens the length dialog (the `useEffect`). -/
lemma step_clickPdf_cal2 (s : AppState) (cX cY rL rT : ℝ)
    (h : s.calibrationMode = true) (hn : s.calibrationPoints.length = 1) :
    step s (Event.clickPdf cX cY rL rT) =
      { s with
          calibrationPoints :=
            s.calibrationPoints ++
              [⟨(cX - rL) / scaleFactor s, (cY - rT) / scaleFactor s⟩],
          calibrationDialogOpen := true } := by
  simp [step, coreStep, applyDialogEffect, handlePdfClick, h, hn,
    append_singleton_ne]

/-- A click in measuring mode (calibration off, scale truthy) appends the
converted point to the in-progress path. -/
lemma step_clickPdf_meas (s : AppState) (cX cY rL rT : ℝ)
    (h : s.calibrationMode = false) (hm : s.measuring = true)
    (hs : scaleTruthy s.scale = true) :
    step s (Event.clickPdf cX cY rL rT) =
      { s with measurementPoints :=
          s.measurementPoints ++
            [⟨(cX - rL) / scaleFactor s, (cY - rT) / scaleFactor s⟩] } := by
  simp [step, coreStep, applyDialogEffect, handleMeasurementClick, h, hm, hs]

/-- A double click with at least two in-progress points finalizes the
measurement, storing the real-world total computed with the current scale. -/
lemma step_dblClick (s : AppState) (c : ℝ) (hm : s.measuring = true)
    (hs : s.scale = some c) (hc : c ≠ 0) (hl : 2 ≤ s.measurementPoints.length) :
    step s Event.dblClickPdf =
      { s with
          measurements :=
            s.measurements ++ [⟨s.measurementPoints, measuredTotal s.measurementPoints c⟩],
          measurementPoints := [],
          measuring := false } := by
  simp [step, coreStep, applyDialogEffect, handleMeasurementDoubleClick, hm, hs, hc,
    Nat.not_lt.mpr hl, not_lt_of_ge hl]

/-- A submit whose outcome is `committed c` installs the new scale and resets
the calibration interaction. -/
lemma step_submit_committed (s : AppState) (c : ℝ) (h : s.calibrationDialogOpen = true)
    (ho : submitOutcome s.calibrationPoints s.realLength = .committed c) :
    step s Event.submitCalibration =
      { s with scale := some c, calibrationDialogOpen := false, calibrationMode := false,
               calibrationPoints := [], realLength := .nan, calibrationError := "" } := by
  simp [step, coreStep, applyDialogEffect, h, ho]

lemma scaleFactor_none (s : AppState) (h : s.scale = none) : scaleFactor s = 1 := by
  simp [scaleFactor, h]

lemma scaleFactor_some (s : AppState) (c : ℝ) (h : s.scale = some c) (hc : c ≠ 0) :
    scaleFactor s = c := by
  simp [scaleFactor, h, hc]

lemma scaleTruthy_some (c : ℝ) (hc : c ≠ 0) : scaleTruthy (some c) = true := by
  simp [scaleTruthy, hc]

/-- A submit with two or more pending points and a positive finite length
commits the quotient of the pixel distance of the first two points by the
length. -/
lemma submitOutcome_pair (p1 p2 : Pt) (rest : List Pt) (y : ℝ) (hy : 0 < y) :
    submitOutcome (p1 :: p2 :: rest) (JSNum.fin y) = .committed (pixelDist p1 p2 / y) := by
  simp [submitOutcome, jsIsNaN, jsLeZero, jsDivScale, not_le.mpr hy]

/-! ### A concrete run: calibrate with points (0,0), (100,0) and length 10.

With no scale committed yet, `scaleFactor` is `1.0`, so clicks at client
positions (0,0) and (100,0) (container origin (0,0)) record exactly those
document points; the pixel distance is 100 and the committed scale is
`100 / 10 = 10` pixels per unit. -/

noncomputable def calibrateTrace : List Event :=
  [Event.toggleCalibration, Event.clickPdf 0 0 0 0, Event.clickPdf 100 0 0 0,
   Event.setRealLength (JSNum.fin 10), Event.submitCalibration]

noncomputable def sCal1 : AppState := { initState with calibrationMode := true }
noncomputable def sCal2 : AppState := { sCal1 with calibrationPoints := [⟨0, 0⟩] }
noncomputable def sCal3 : AppState :=
  { sCal1 with calibrationPoints := [⟨0, 0⟩, ⟨100, 0⟩], calibrationDialogOpen := true }
noncomputable def sCal4 : AppState := { sCal3 with realLength := JSNum.fin 10 }
noncomputable def stateAfterCal : AppState := { initState with scale := some 10 }

lemma pixelDist_00_100 : pixelDist ⟨0, 0⟩ ⟨100, 0⟩ = 100 :=
  pixelDist_eval (by norm_num) (by norm_num)

lemma calStep1 : step initState Event.toggleCalibration = sCal1 := by
  rw [step_toggleCalibration]; rfl

lemma calStep2 : step sCal1 (Event.clickPdf 0 0 0 0) = sCal2 := by
  rw [step_clickPdf_cal sCal1 0 0 0 0 rfl (by norm_num [sCal1, initState])]
  simp [sCal1, sCal2, initState, scaleFactor, AppState.mk.injEq, Pt.mk.injEq]

lemma calStep3 : step sCal2 (Event.clickPdf 100 0 0 0) = sCal3 := by
  rw [step_clickPdf_cal2 sCal2 100 0 0 0 rfl (by norm_num [sCal2, sCal1, initState])]
  simp [sCal1, sCal2, sCal3, initState, scaleFactor, AppState.mk.injEq, Pt.mk.injEq]

lemma calStep4 : step sCal3 (Event.setRealLength (JSNum.fin 10)) = sCal4 := by
  rw [step_setRealLength sCal3 _ rfl]; rfl

lemma submitOutcome_cal : submitOutcome [(⟨0, 0⟩ : Pt), ⟨100, 0⟩] (JSNum.fin 10) =
    .committed 10 := by
  rw [submitOutcome_pair _ _ _ 10 (by norm_num), pixelDist_00_100]
  norm_num

lemma calStep5 : step sCal4 Event.submitCalibration = stateAfterCal := by
  rw [step_submit_committed sCal4 10 rfl submitOutcome_cal]
  simp [sCal4, sCal3, sCal1, initState, stateAfterCal, AppState.mk.injEq]

lemma calibrate_eval : runTrace initState calibrateTrace = stateAfterCal := by
  simp only [runTrace, calibrateTrace, List.foldl_cons, List.foldl_nil,
    calStep1, calStep2, calStep3, calStep4, calStep5]

lemma runTrace_append (s : AppState) (t1 t2 : List Event) :
    runTrace s (t1 ++ t2) = runTrace (runTrace s t1) t2 := by
  simp [runTrace]

/-! ### Continuing the run: measure the path (0,0) → (20,0).

With `scale = 10` committed, `scaleFactor` is `10`, so clicks at client
positions (0,0) and (200,0) record document points (0,0) and (20,0); the
double click stores the measurement with `length = 20 / 10 = 2`. -/

noncomputable def measureTrace : List Event :=
  [Event.toggleMeasuring, Event.clickPdf 0 0 0 0, Event.clickPdf 200 0 0 0,
   Event.dblClickPdf]

noncomputable def sMeas1 : AppState := { stateAfterCal with measuring := true }
noncomputable def sMeas2 : AppState := { sMeas1 with measurementPoints := [⟨0, 0⟩] }
noncomputable def sMeas3 : AppState :=
  { sMeas1 with measurementPoints := [⟨0, 0⟩, ⟨20, 0⟩] }
noncomputable def stateAfterMeas : AppState :=
  { initState with scale := some 10, measurements := [⟨[⟨0, 0⟩, ⟨20, 0⟩], 2⟩] }

lemma measStep1 : step stateAfterCal Event.toggleMeasuring = sMeas1 := by
  rw [step_toggleMeasuring stateAfterCal (scaleTruthy_some 10 (by norm_num))]; rfl

lemma measStep2 : step sMeas1 (Event.clickPdf 0 0 0 0) = sMeas2 := by
  rw [step_clickPdf_meas sMeas1 0 0 0 0 rfl rfl (scaleTruthy_some 10 (by norm_num))]
  rw [scaleFactor_some sMeas1 10 rfl (by norm_num)]
  simp [sMeas1, sMeas2, stateAfterCal, initState, AppState.mk.injEq, Pt.mk.injEq]

lemma measStep3 : step sMeas2 (Event.clickPdf 200 0 0 0) = sMeas3 := by
  rw [step_clickPdf_meas sMeas2 200 0 0 0 rfl rfl (scaleTruthy_some 10 (by norm_num))]
  rw [scaleFactor_some sMeas2 10 rfl (by norm_num)]
  simp [sMeas1, sMeas2, sMeas3, stateAfterCal, initState, AppState.mk.injEq, Pt.mk.injEq]
  norm_num

lemma measuredTotal_meas : measuredTotal [(⟨0, 0⟩ : Pt), ⟨20, 0⟩] 10 = 2 := by
  have h : pixelDist ⟨0, 0⟩ ⟨20, 0⟩ = 20 := pixelDist_eval (by norm_num) (by norm_num)
  simp [measuredTotal, h]
  norm_num

lemma measStep4 : step sMeas3 Event.dblClickPdf = stateAfterMeas := by
  rw [step_dblClick sMeas3 10 rfl rfl (by norm_num)
    (by norm_num [sMeas3, sMeas1, stateAfterCal, initState])]
  rw [show sMeas3.measurementPoints = [(⟨0, 0⟩ : Pt), ⟨20, 0⟩] from rfl, measuredTotal_meas]
  simp [sMeas3, sMeas1, stateAfterCal, initState, stateAfterMeas, AppState.mk.injEq,
    Measurement.mk.injEq]

lemma measure_eval : runTrace stateAfterCal measureTrace = stateAfterMeas := by
  simp only [runTrace, measureTrace, List.foldl_cons, List.foldl_nil,
    measStep1, measStep2, measStep3, measStep4]

/-! ### Continuing the run: re-calibrate to `scale = 5`.

Clicks at client (0,0) and (500,0) now record document points (0,0) and
(50,0) (division by the live `scaleFactor = 10`); submitting length 10
replaces the scale by `50 / 10 = 5`.  The stored measurement is untouched. -/

noncomputable def recalibrateTrace : List Event :=
  [Event.toggleCalibration, Event.clickPdf 0 0 0 0, Event.clickPdf 500 0 0 0,
   Event.setRealLength (JSNum.fin 10), Event.submitCalibration]

noncomputable def sRe1 : AppState := { stateAfterMeas with calibrationMode := true }
noncomputable def sRe2 : AppState := { sRe1 with calibrationPoints := [⟨0, 0⟩] }
noncomputable def sRe3 : AppState :=
  { sRe1 with calibrationPoints := [⟨0, 0⟩, ⟨50, 0⟩], calibrationDialogOpen := true }
noncomputable def sRe4 : AppState := { sRe3 with realLength := JSNum.fin 10 }
noncomputable def stateRecal : AppState :=
  { initState with scale := some 5, measurements := [⟨[⟨0, 0⟩, ⟨20, 0⟩], 2⟩] }

lemma reStep1 : step stateAfterMeas Event.toggleCalibration = sRe1 := by
  rw [step_toggleCalibration]; rfl

lemma reStep2 : step sRe1 (Event.clickPdf 0 0 0 0) = sRe2 := by
  rw [step_clickPdf_cal sRe1 0 0 0 0 rfl (by norm_num [sRe1, stateAfterMeas, initState])]
  rw [scaleFactor_some sRe1 10 rfl (by norm_num)]
  simp [sRe1, sRe2, stateAfterMeas, initState, AppState.mk.injEq, Pt.mk.injEq]

lemma reStep3 : step sRe2 (Event.clickPdf 500 0 0 0) = sRe3 := by
  rw [step_clickPdf_cal2 sRe2 500 0 0 0 rfl (by norm_num [sRe2, sRe1, stateAfterMeas, initState])]
  rw [scaleFactor_some sRe2 10 rfl (by norm_num)]
  simp [sRe1, sRe2, sRe3, stateAfterMeas, initState, AppState.mk.injEq, Pt.mk.injEq]
  norm_num

lemma reStep4 : step sRe3 (Event.setRealLength (JSNum.fin 10)) = sRe4 := by
  rw [step_setRealLength sRe3 _ rfl]; rfl

lemma submitOutcome_recal : submitOutcome [(⟨0, 0⟩ : Pt), ⟨50, 0⟩] (JSNum.fin 10) =
    .committed 5 := by
  have h : pixelDist ⟨0, 0⟩ ⟨50, 0⟩ = 50 := pixelDist_eval (by norm_num) (by norm_num)
  rw [submitOutcome_pair _ _ _ 10 (by norm_num), h]
  norm_num

lemma reStep5 : step sRe4 Event.submitCalibration = stateRecal := by
  rw [step_submit_committed sRe4 5 rfl submitOutcome_recal]
  simp [sRe4, sRe3, sRe1, stateAfterMeas, initState, stateRecal, AppState.mk.injEq]

lemma recalibrate_eval : runTrace stateAfterMeas recalibrateTrace = stateRecal := by
  simp only [runTrace, recalibrateTrace, List.foldl_cons, List.foldl_nil,
    reStep1, reStep2, reStep3, reStep4, reStep5]

/-! ### A run reaching both interaction modes at once.

From the calibrated state: enter measuring mode, place one measurement
point, then press the calibration toggle (which does not touch `measuring`),
then click again — the click is routed to the calibration handler, leaving a
state with both mode flags set and both point lists non-empty. -/

noncomputable def bothModesTrace : List Event :=
  calibrateTrace ++
    [Event.toggleMeasuring, Event.clickPdf 0 0 0 0, Event.toggleCalibration,
     Event.clickPdf 30 0 0 0]

noncomputable def sBoth1 : AppState := { sMeas2 with calibrationMode := true }
noncomputable def sBoth2 : AppState := { sBoth1 with calibrationPoints := [⟨3, 0⟩] }

lemma bothStep1 : step sMeas2 Event.toggleCalibration = sBoth1 := by
  rw [step_toggleCalibration]; rfl

lemma bothStep2 : step sBoth1 (Event.clickPdf 30 0 0 0) = sBoth2 := by
  rw [step_clickPdf_cal sBoth1 30 0 0 0 rfl
    (by norm_num [sBoth1, sMeas2, sMeas1, stateAfterCal, initState])]
  rw [scaleFactor_some sBoth1 10 rfl (by norm_num)]
  simp [sBoth1, sBoth2, sMeas2, sMeas1, stateAfterCal, initState, AppState.mk.injEq,
    Pt.mk.injEq]
  norm_num

lemma bothModes_eval : runTrace initState bothModesTrace = sBoth2 := by
  rw [bothModesTrace, runTrace_append, calibrate_eval]
  simp only [runTrace, List.foldl_cons, List.foldl_nil,
    measStep1, measStep2, bothStep1, bothStep2]

/-! ### A run reaching three pending calibration points.

Two clicks open the length dialog; closing it leaves the two points and
calibration mode in place, and a further click appends a third point. -/

noncomputable def threePointsTrace : List Event :=
  [Event.toggleCalibration, Event.clickPdf 1 0 0 0, Event.clickPdf 2 0 0 0,
   Event.closeCalibrationDialog, Event.clickPdf 3 0 0 0]

noncomputable def sThree2 : AppState := { sCal1 with calibrationPoints := [⟨1, 0⟩] }
noncomputable def sThree3 : AppState :=
  { sCal1 with calibrationPoints := [⟨1, 0⟩, ⟨2, 0⟩], calibrationDialogOpen := true }
noncomputable def sThree4 : AppState :=
  { sCal1 with calibrationPoints := [⟨1, 0⟩, ⟨2, 0⟩] }
noncomputable def sThree5 : AppState :=
  { sCal1 with calibrationPoints := [⟨1, 0⟩, ⟨2, 0⟩, ⟨3, 0⟩] }

lemma threeStep2 : step sCal1 (Event.clickPdf 1 0 0 0) = sThree2 := by
  rw [step_clickPdf_cal sCal1 1 0 0 0 rfl (by norm_num [sCal1, initState])]
  simp [sCal1, sThree2, initState, scaleFactor, AppState.mk.injEq, Pt.mk.injEq]

lemma threeStep3 : step sThree2 (Event.clickPdf 2 0 0 0) = sThree3 := by
  rw [step_clickPdf_cal2 sThree2 2 0 0 0 rfl (by norm_num [sThree2, sCal1, initState])]
  simp [sThree2, sThree3, sCal1, initState, scaleFactor, AppState.mk.injEq, Pt.mk.injEq]

lemma threeStep4 : step sThree3 Event.closeCalibrationDialog = sThree4 := by
  rw [step_closeCalibrationDialog]; rfl

lemma threeStep5 : step sThree4 (Event.clickPdf 3 0 0 0) = sThree5 := by
  rw [step_clickPdf_cal sThree4 3 0 0 0 rfl (by norm_num [sThree4, sCal1, initState])]
  simp [sThree4, sThree5, sCal1, initState, scaleFactor, AppState.mk.injEq, Pt.mk.injEq]

lemma threePoints_eval : runTrace initState threePointsTrace = sThree5 := by
  simp only [runTrace, threePointsTrace, List.foldl_cons, List.foldl_nil,
    calStep1, threeStep2, threeStep3, threeStep4, threeStep5]

/-! ### A run committing two coincident calibration points.

Both clicks land at client (5,5); the pixel distance is 0, the guard only
checks the length value, and the submit installs `scale = 0 / 10 = 0`. -/

noncomputable def coincidentTrace : List Event :=
  [Event.toggleCalibration, Event.clickPdf 5 5 0 0, Event.clickPdf 5 5 0 0,
   Event.setRealLength (JSNum.fin 10), Event.submitCalibration]

noncomputable def sCo2 : AppState := { sCal1 with calibrationPoints := [⟨5, 5⟩] }
noncomputable def sCo3 : AppState :=
  { sCal1 with calibrationPoints := [⟨5, 5⟩, ⟨5, 5⟩], calibrationDialogOpen := true }
noncomputable def sCo4 : AppState := { sCo3 with realLength := JSNum.fin 10 }
noncomputable def stateZeroScale : AppState := { initState with scale := some 0 }

lemma coStep2 : step sCal1 (Event.clickPdf 5 5 0 0) = sCo2 := by
  rw [step_clickPdf_cal sCal1 5 5 0 0 rfl (by norm_num [sCal1, initState])]
  simp [sCal1, sCo2, initState, scaleFactor, AppState.mk.injEq, Pt.mk.injEq]

lemma coStep3 : step sCo2 (Event.clickPdf 5 5 0 0) = sCo3 := by
  rw [step_clickPdf_cal2 sCo2 5 5 0 0 rfl (by norm_num [sCo2, sCal1, initState])]
  simp [sCo2, sCo3, sCal1, initState, scaleFactor, AppState.mk.injEq, Pt.mk.injEq]

lemma coStep4 : step sCo3 (Event.setRealLength (JSNum.fin 10)) = sCo4 := by
  rw [step_setRealLength sCo3 _ rfl]; rfl

lemma pixelDist_self (p : Pt) : pixelDist p p = 0 := by
  simp [pixelDist]

lemma submitOutcome_coincident (p : Pt) (rest : List Pt) (y : ℝ) (hy : 0 < y) :
    submitOutcome (p :: p :: rest) (JSNum.fin y) = .committed 0 := by
  rw [submitOutcome_pair _ _ _ y hy, pixelDist_self]
  norm_num

lemma coStep5 : step sCo4 Event.submitCalibration = stateZeroScale := by
  rw [step_submit_committed sCo4 0 rfl (submitOutcome_coincident _ _ 10 (by norm_num))]
  simp [sCo4, sCo3, sCal1, initState, stateZeroScale, AppState.mk.injEq]

lemma coincident_eval : runTrace initState coincidentTrace = stateZeroScale := by
  simp only [runTrace, coincidentTrace, List.foldl_cons, List.foldl_nil,
    calStep1, coStep2, coStep3, coStep4, coStep5]

/-! ### A run committing the length `+Infinity`.

`parseFloat("Infinity")` is `Infinity`; neither `isNaN` nor `<= 0` rejects
it, and the committed scale is `100 / Infinity = 0`. -/

noncomputable def infinityTrace : List Event :=
  [Event.toggleCalibration, Event.clickPdf 0 0 0 0, Event.clickPdf 100 0 0 0,
   Event.setRealLength JSNum.posInf, Event.submitCalibration]

noncomputable def sInf4 : AppState := { sCal3 with realLength := JSNum.posInf }

lemma infStep4 : step sCal3 (Event.setRealLength JSNum.posInf) = sInf4 := by
  rw [step_setRealLength sCal3 _ rfl]; rfl

lemma submitOutcome_posInf (p1 p2 : Pt) (rest : List Pt) :
    submitOutcome (p1 :: p2 :: rest) JSNum.posInf = .committed 0 := by
  simp [submitOutcome, jsIsNaN, jsLeZero, jsDivScale]

lemma infStep5 : step sInf4 Event.submitCalibration = stateZeroScale := by
  rw [step_submit_committed sInf4 0 rfl (submitOutcome_posInf _ _ _)]
  simp [sInf4, sCal3, sCal1, initState, stateZeroScale, AppState.mk.injEq]

lemma infinity_eval : runTrace initState infinityTrace = stateZeroScale := by
  simp only [runTrace, infinityTrace, List.foldl_cons, List.foldl_nil,
    calStep1, calStep2, calStep3, infStep4, infStep5]

/-! ### A run loading a new document after calibrating and measuring. -/

noncomputable def newDocumentTrace : List Event :=
  calibrateTrace ++ measureTrace ++ [Event.openUpload, Event.dropPdf "plan2.pdf"]

noncomputable def sDoc1 : AppState := { stateAfterMeas with uploadOpen := true }
noncomputable def stateAfterDrop : AppState :=
  { initState with
      scale := some 10,
      measurements := [⟨[⟨0, 0⟩, ⟨20, 0⟩], 2⟩],
      pdfFile := true,
      pdfUrl := some "plan2.pdf" }

lemma docStep1 : step stateAfterMeas Event.openUpload = sDoc1 := by
  rw [step_openUpload]; rfl

lemma docStep2 : step sDoc1 (Event.dropPdf "plan2.pdf") = stateAfterDrop := by
  rw [step_dropPdf sDoc1 _ rfl]; rfl

lemma newDocument_eval : runTrace initState newDocumentTrace = stateAfterDrop := by
  rw [newDocumentTrace, runTrace_append, runTrace_append, calibrate_eval, measure_eval]
  simp only [runTrace, List.foldl_cons, List.foldl_nil, docStep1, docStep2]

/-! ### The dialog effect only ever touches `calibrationDialogOpen` -/

lemma applyDialogEffect_scale (old next : AppState) :
    (applyDialogEffect old next).scale = next.scale := by
  unfold applyDialogEffect; split <;> rfl

lemma applyDialogEffect_measurements (old next : AppState) :
    (applyDialogEffect old next).measurements = next.measurements := by
  unfold applyDialogEffect; split <;> rfl

lemma applyDialogEffect_measuring (old next : AppState) :
    (applyDialogEffect old next).measuring = next.measuring := by
  unfold applyDialogEffect; split <;> rfl

lemma applyDialogEffect_measurementPoints (old next : AppState) :
    (applyDialogEffect old next).measurementPoints = next.measurementPoints := by
  unfold applyDialogEffect; split <;> rfl

lemma applyDialogEffect_calibrationPoints (old next : AppState) :
    (applyDialogEffect old next).calibrationPoints = next.calibrationPoints := by
  unfold applyDialogEffect; split <;> rfl

lemma applyDialogEffect_calibrationMode (old next : AppState) :
    (applyDialogEffect old next).calibrationMode = next.calibrationMode := by
  unfold applyDialogEffect; split <;> rfl

/-! ### Claim theorems -/

/-- C8 (confirmed): for every screen point, container origin and zoom factor
in [0.5, 2.0], mapping to document space (subtract the origin, divide by the
zoom) and back to screen space (multiply by the zoom, add the origin) yields
the original point; and the calibration click handler records exactly the
`toDocumentSpace` image of the click. -/
theorem screen_document_roundtrip (p origin : Pt) (zoom : ℝ)
    (h1 : 1 / 2 ≤ zoom) (h2 : zoom ≤ 2) :
    documentToScreen (toDocumentSpace p origin zoom) origin zoom = p ∧
    (∀ (s : AppState) (cX cY rL rT : ℝ), s.calibrationMode = true →
      (handlePdfClick s cX cY rL rT).calibrationPoints =
        s.calibrationPoints ++ [toDocumentSpace ⟨cX, cY⟩ ⟨rL, rT⟩ (scaleFactor s)]) := by
  have hz : zoom ≠ 0 := by intro h0; rw [h0] at h1; norm_num at h1
  constructor
  · ext
    · show (p.x - origin.x) / zoom * zoom + origin.x = p.x
      rw [div_mul_cancel₀ _ hz]; ring
    · show (p.y - origin.y) / zoom * zoom + origin.y = p.y
      rw [div_mul_cancel₀ _ hz]; ring
  · intro s cX cY rL rT h
    simp [handlePdfClick, h, toDocumentSpace]

/-- Witness for C8 at p = (3,7), origin = (1,2), zoom = 1. -/
theorem screen_document_roundtrip_witness :
    documentToScreen (toDocumentSpace ⟨3, 7⟩ ⟨1, 2⟩ 1) ⟨1, 2⟩ 1 = (⟨3, 7⟩ : Pt) ∧
    (1 : ℝ) / 2 ≤ 1 ∧ (1 : ℝ) ≤ 2 :=
  ⟨(screen_document_roundtrip ⟨3, 7⟩ ⟨1, 2⟩ 1 (by norm_num) (by norm_num)).1,
   by norm_num, by norm_num⟩

/-- C9 (confirmed): the computed path length is the sum of the Euclidean
distances of consecutive points, each divided by the scale — equivalently the
pixel path length divided by the scale; the pixel length of the path
(0,0) → (3,0) → (3,4) is 7 = 3 + 4, not the direct endpoint distance 5. -/
theorem path_length_is_segment_sum :
    (∀ (pts : List Pt) (sc : ℝ), measuredTotal pts sc = pathPixelLength pts / sc) ∧
    pathPixelLength [⟨0, 0⟩, ⟨3, 0⟩, ⟨3, 4⟩] = 7 ∧
    pixelDist ⟨0, 0⟩ ⟨3, 4⟩ = 5 ∧
    (7 : ℝ) ≠ 5 := by
  refine ⟨measuredTotal_eq_div, ?_, pixelDist_eval (by norm_num) (by norm_num), by norm_num⟩
  have ha : pixelDist (⟨0, 0⟩ : Pt) ⟨3, 0⟩ = 3 := pixelDist_eval (by norm_num) (by norm_num)
  have hb : pixelDist (⟨3, 0⟩ : Pt) ⟨3, 4⟩ = 4 := pixelDist_eval (by norm_num) (by norm_num)
  simp [pathPixelLength, ha, hb]
  norm_num

/-- C10 (confirmed): whenever the stored scale is `0` or absent — including
the `scale = some 0` produced by committing two coincident calibration
points — the measurement click handler and the double-click finalizer leave
the state unchanged and the measurement overlay renders nothing, so the
divisions by the scale are never executed with divisor 0. -/
theorem falsy_scale_measurement_noop (s : AppState) (cX cY rL rT : ℝ)
    (h : s.scale = none ∨ s.scale = some 0) :
    handleMeasurementClick s cX cY rL rT = s ∧
    handleMeasurementDoubleClick s = s ∧
    renderMeasurementOverlay s = none ∧
    (∀ (p : Pt) (y : ℝ), 0 < y → submitOutcome [p, p] (JSNum.fin y) = .committed 0) := by
  refine ⟨?_, ?_, ?_, fun p y hy => submitOutcome_coincident p [] y hy⟩
  · rcases h with h | h <;> simp [handleMeasurementClick, scaleTruthy, h]
  · rcases h with h | h <;> simp [handleMeasurementDoubleClick, h]
  · rcases h with h | h <;> simp [renderMeasurementOverlay, h]

/-- Witness for C10 at the zero-scale state reached by the coincident-points
run. -/
theorem falsy_scale_measurement_noop_witness :
    handleMeasurementClick stateZeroScale 9 4 0 0 = stateZeroScale ∧
    handleMeasurementDoubleClick stateZeroScale = stateZeroScale ∧
    renderMeasurementOverlay stateZeroScale = none ∧
    submitOutcome [(⟨6, 6⟩ : Pt), ⟨6, 6⟩] (JSNum.fin 3) = .committed 0 := by
  obtain ⟨h1, h2, h3, h4⟩ :=
    falsy_scale_measurement_noop stateZeroScale 9 4 0 0 (Or.inr rfl)
  exact ⟨h1, h2, h3, h4 ⟨6, 6⟩ 3 (by norm_num)⟩

/-- C1 counterexample: after calibrating to 10 px/unit, measuring a 20-pixel
path (stored real length 2), and re-calibrating to 5 px/unit, the stored and
displayed length is still 2, while `pixelLength / pixelsPerUnit` with the
live scale would be 4 — the claimed retroactive rescale does not happen. -/
theorem stored_length_not_rederived_cex :
    (runTrace initState (calibrateTrace ++ measureTrace ++ recalibrateTrace)).scale =
      some 5 ∧
    (runTrace initState (calibrateTrace ++ measureTrace ++ recalibrateTrace)).measurements =
      [⟨[⟨0, 0⟩, ⟨20, 0⟩], 2⟩] ∧
    displayedLength ⟨[⟨0, 0⟩, ⟨20, 0⟩], 2⟩ = 2 ∧
    pathPixelLength [⟨0, 0⟩, ⟨20, 0⟩] / 5 = 4 ∧
    (2 : ℝ) ≠ 4 := by
  have he : runTrace initState (calibrateTrace ++ measureTrace ++ recalibrateTrace) =
      stateRecal := by
    rw [runTrace_append, runTrace_append, calibrate_eval, measure_eval, recalibrate_eval]
  have hp : pathPixelLength [(⟨0, 0⟩ : Pt), ⟨20, 0⟩] = 20 := by
    have h : pixelDist (⟨0, 0⟩ : Pt) ⟨20, 0⟩ = 20 := pixelDist_eval (by norm_num) (by norm_num)
    simp [pathPixelLength, h]
  rw [he, hp]
  refine ⟨rfl, rfl, rfl, by norm_num, by norm_num⟩

/-- C1 (amended): the finalizer stores the real-world length computed with
the scale live at finalization time in the Measurement's `length` field; a
later calibration submit or zoom never touches the stored measurements, and
the overlay label shows the stored field — so recalibrating does not change
reported lengths. -/
theorem finalize_stores_real_length (s : AppState) (c : ℝ)
    (hm : s.measuring = true) (hs : s.scale = some c) (hc : c ≠ 0)
    (hl : 2 ≤ s.measurementPoints.length) :
    (handleMeasurementDoubleClick s).measurements =
      s.measurements ++ [⟨s.measurementPoints, measuredTotal s.measurementPoints c⟩] ∧
    (∀ t : AppState, (step t Event.submitCalibration).measurements = t.measurements) ∧
    (∀ t : AppState, (step t Event.zoomIn).measurements = t.measurements) ∧
    (∀ m : Measurement, displayedLength m = m.length) := by
  refine ⟨?_, ?_, ?_, fun m => rfl⟩
  · simp [handleMeasurementDoubleClick, hm, hs, hc, Nat.not_lt.mpr hl]
  · intro t
    simp only [step]
    rw [applyDialogEffect_measurements]
    simp only [coreStep]
    by_cases hd : t.calibrationDialogOpen = true
    · cases ho : submitOutcome t.calibrationPoints t.realLength <;> simp [hd, ho]
    · simp [hd]
  · intro t
    simp only [step]
    rw [applyDialogEffect_measurements]
    simp [coreStep]

/-- Witness for C1 (amended) at the concrete measuring state of the run. -/
theorem finalize_stores_real_length_witness :
    (handleMeasurementDoubleClick sMeas3).measurements =
      sMeas3.measurements ++
        [⟨sMeas3.measurementPoints, measuredTotal sMeas3.measurementPoints 10⟩] ∧
    (step stateRecal Event.submitCalibration).measurements = stateRecal.measurements := by
  obtain ⟨h1, h2, _, _⟩ := finalize_stores_real_length sMeas3 10 rfl rfl (by norm_num)
    (by norm_num [sMeas3, sMeas1, stateAfterCal, initState])
  exact ⟨h1, h2 stateRecal⟩

/-- C2 (code bug): the zoom buttons mutate the same `scale` state that holds
the committed pixels-per-unit ratio: after committing a calibration of 10,
one zoom-in press replaces the ratio by `min(10 + 0.2, 3) = 3`. -/
theorem zoom_overwrites_committed_scale :
    (runTrace initState calibrateTrace).scale = some 10 ∧
    (step (runTrace initState calibrateTrace) Event.zoomIn).scale = some 3 ∧
    (10 : ℝ) ≠ 3 := by
  rw [calibrate_eval]
  refine ⟨rfl, ?_, by norm_num⟩
  rw [step_zoomIn]
  show some (zoomInScale stateAfterCal.scale) = some 3
  rw [show stateAfterCal.scale = some 10 from rfl]
  norm_num [zoomInScale, min_def]

/-- C3 counterexample: committing the coincident points (5,5), (5,5) with
length 10 does not fail with any error — the submit returns a committed
outcome and installs `scale = some 0`. -/
theorem coincident_commit_cex :
    submitOutcome [⟨5, 5⟩, ⟨5, 5⟩] (JSNum.fin 10) = .committed 0 ∧
    (runTrace initState coincidentTrace).scale = some 0 := by
  refine ⟨submitOutcome_coincident _ _ 10 (by norm_num), ?_⟩
  rw [coincident_eval]; rfl

/-- C3 (amended): committing two coincident calibration points succeeds and
installs a pixels-per-unit scale of 0 (there is no `DegenerateCalibration`
error); the zero scale is falsy downstream, so measuring stays disabled. -/
theorem coincident_commit_installs_zero (p : Pt) (rest : List Pt) (y : ℝ) (hy : 0 < y) :
    submitOutcome (p :: p :: rest) (JSNum.fin y) = .committed 0 ∧
    scaleTruthy (some 0) = false ∧
    (∀ s : AppState, s.calibrationDialogOpen = true →
      submitOutcome s.calibrationPoints s.realLength = .committed 0 →
      (step s Event.submitCalibration).scale = some 0) := by
  refine ⟨submitOutcome_coincident p rest y hy, by simp [scaleTruthy], ?_⟩
  intro s hd ho
  rw [step_submit_committed s 0 hd ho]

/-- Witness for C3 (amended) at the concrete coincident-points state. -/
theorem coincident_commit_installs_zero_witness :
    submitOutcome [(⟨5, 5⟩ : Pt), ⟨5, 5⟩] (JSNum.fin 10) = .committed 0 ∧
    scaleTruthy (some 0) = false ∧
    (step sCo4 Event.submitCalibration).scale = some 0 := by
  obtain ⟨h1, h2, h3⟩ := coincident_commit_installs_zero (⟨5, 5⟩ : Pt) [] 10 (by norm_num)
  exact ⟨h1, h2, h3 sCo4 rfl h1⟩

/-- C4 counterexample: after loading a new document (drag-and-drop of
"plan2.pdf") the calibration scale is still `some 10` (not absent) and the
completed measurements list is non-empty — nothing was reset. -/
theorem new_document_no_reset_cex :
    (runTrace initState newDocumentTrace).pdfUrl = some "plan2.pdf" ∧
    (runTrace initState newDocumentTrace).scale = some 10 ∧
    (runTrace initState newDocumentTrace).measurements = [⟨[⟨0, 0⟩, ⟨20, 0⟩], 2⟩] ∧
    some (10 : ℝ) ≠ none ∧
    ([⟨[⟨0, 0⟩, ⟨20, 0⟩], 2⟩] : List Measurement) ≠ [] := by
  rw [newDocument_eval]
  exact ⟨rfl, rfl, rfl, by simp, by simp⟩

/-- C4 (amended): loading a new document (drop or file picker) changes only
the pdf fields and the upload-dialog flag; the calibration scale, pending
calibration points, in-progress measurement points and completed
measurements all persist. -/
theorem load_document_preserves_session (s : AppState) (url : String) :
    ((step s (Event.dropPdf url)).scale = s.scale ∧
      (step s (Event.dropPdf url)).measurements = s.measurements ∧
      (step s (Event.dropPdf url)).calibrationPoints = s.calibrationPoints ∧
      (step s (Event.dropPdf url)).measurementPoints = s.measurementPoints) ∧
    ((step s (Event.chooseFile url)).scale = s.scale ∧
      (step s (Event.chooseFile url)).measurements = s.measurements) := by
  by_cases hu : s.uploadOpen = true <;>
    simp [step, coreStep, applyDialogEffect, hu]

/-- C5 counterexample: a reachable state in which both Calibrating and
Measuring are active at once and a pending calibration point coexists with
an in-progress measurement point (toggling one mode does not clear the
other). -/
theorem both_modes_coexist_cex :
    (runTrace initState bothModesTrace).calibrationMode = true ∧
    (runTrace initState bothModesTrace).measuring = true ∧
    (runTrace initState bothModesTrace).calibrationPoints = [⟨3, 0⟩] ∧
    (runTrace initState bothModesTrace).measurementPoints = [⟨0, 0⟩] := by
  rw [bothModes_eval]
  exact ⟨rfl, rfl, rfl, rfl⟩

/-- C5 (amended): the two mode flags are independent booleans that can both
be active, and pending calibration points can coexist with an in-progress
path; a pointer click is nevertheless consumed by at most one handler,
calibration taking priority when both modes are on, and is ignored when
neither mode is on. -/
theorem click_routing_priority (s : AppState) (cX cY rL rT : ℝ) :
    (s.calibrationMode = true →
      (step s (Event.clickPdf cX cY rL rT)).measurementPoints = s.measurementPoints ∧
      (step s (Event.clickPdf cX cY rL rT)).measuring = s.measuring) ∧
    (s.calibrationMode = false → s.measuring = true →
      (step s (Event.clickPdf cX cY rL rT)).calibrationPoints = s.calibrationPoints ∧
      (step s (Event.clickPdf cX cY rL rT)).calibrationMode = false) ∧
    (s.calibrationMode = false → s.measuring = false →
      step s (Event.clickPdf cX cY rL rT) = s) := by
  refine ⟨fun h => ⟨?_, ?_⟩, fun h hm => ⟨?_, ?_⟩, fun h hm => ?_⟩
  · simp only [step]
    rw [applyDialogEffect_measurementPoints]
    simp only [coreStep, h, if_true]
    unfold handlePdfClick
    split <;> rfl
  · simp only [step]
    rw [applyDialogEffect_measuring]
    simp only [coreStep, h, if_true]
    unfold handlePdfClick
    split <;> rfl
  · simp only [step]
    rw [applyDialogEffect_calibrationPoints]
    have hroute : coreStep s (Event.clickPdf cX cY rL rT) =
        handleMeasurementClick s cX cY rL rT := by
      simp [coreStep, h, hm]
    rw [hroute]
    unfold handleMeasurementClick
    split <;> rfl
  · simp only [step]
    rw [applyDialogEffect_calibrationMode]
    have hroute : coreStep s (Event.clickPdf cX cY rL rT) =
        handleMeasurementClick s cX cY rL rT := by
      simp [coreStep, h, hm]
    rw [hroute]
    unfold handleMeasurementClick
    split <;> exact h
  · simp [step, coreStep, applyDialogEffect, h, hm]

/-- Witness for C5 (amended) at the both-modes state of the run and at a
measuring-only state. -/
theorem click_routing_priority_witness :
    (step sBoth2 (Event.clickPdf 8 8 0 0)).measurementPoints = sBoth2.measurementPoints ∧
    (step sMeas2 (Event.clickPdf 8 8 0 0)).calibrationPoints = sMeas2.calibrationPoints :=
  ⟨((click_routing_priority sBoth2 8 8 0 0).1 rfl).1,
   ((click_routing_priority sMeas2 8 8 0 0).2.1 rfl rfl).1⟩

/-- C6 counterexample: a reachable state with three pending calibration
points — after the second click auto-opens the dialog, closing the dialog
and clicking again appends a third point. -/
theorem three_pending_points_cex :
    (runTrace initState threePointsTrace).calibrationPoints =
      [⟨1, 0⟩, ⟨2, 0⟩, ⟨3, 0⟩] ∧
    (runTrace initState threePointsTrace).calibrationPoints.length = 3 ∧
    ¬((runTrace initState threePointsTrace).calibrationPoints.length ≤ 2) := by
  rw [threePoints_eval]
  refine ⟨rfl, rfl, by norm_num [sThree5, sCal1, initState]⟩

/-- C6 (amended): a calibration-mode click appends the converted point
unconditionally — there is no fewer-than-2 guard, so the pending count can
exceed 2 — and the length dialog opens whenever the count reaches exactly
2. -/
theorem calibration_click_appends_unconditionally (s : AppState) (cX cY rL rT : ℝ)
    (h : s.calibrationMode = true) :
    (step s (Event.clickPdf cX cY rL rT)).calibrationPoints =
      s.calibrationPoints ++
        [⟨(cX - rL) / scaleFactor s, (cY - rT) / scaleFactor s⟩] ∧
    ((step s (Event.clickPdf cX cY rL rT)).calibrationPoints.length = 2 →
      (step s (Event.clickPdf cX cY rL rT)).calibrationDialogOpen = true) := by
  by_cases hn : s.calibrationPoints.length = 1
  · rw [step_clickPdf_cal2 s cX cY rL rT h hn]
    exact ⟨rfl, fun _ => rfl⟩
  · rw [step_clickPdf_cal s cX cY rL rT h hn]
    refine ⟨rfl, fun hlen => ?_⟩
    exfalso
    apply hn
    have hlen1 : s.calibrationPoints.length + 1 = 2 := by simpa using hlen
    omega

noncomputable def wState6 : AppState :=
  { initState with calibrationMode := true, calibrationPoints := [⟨4, 4⟩] }

/-- Witness for C6 (amended): in calibration mode with one pending point, a
click at client (7,0) appends document point (7,0) and opens the dialog. -/
theorem calibration_click_appends_unconditionally_witness :
    (step wState6 (Event.clickPdf 7 0 0 0)).calibrationPoints = [⟨4, 4⟩, ⟨7, 0⟩] ∧
    (step wState6 (Event.clickPdf 7 0 0 0)).calibrationDialogOpen = true := by
  obtain ⟨h1, h2⟩ := calibration_click_appends_unconditionally wState6 7 0 0 0 rfl
  have hpts : (step wState6 (Event.clickPdf 7 0 0 0)).calibrationPoints =
      [⟨4, 4⟩, ⟨7, 0⟩] := by
    rw [h1]
    norm_num [wState6, initState, scaleFactor, Pt.mk.injEq]
  refine ⟨hpts, h2 ?_⟩
  rw [hpts]; rfl

/-- C7 counterexample: submitting `+Infinity` passes the `isNaN(len) ||
len <= 0` guard, so the commit succeeds and installs `scale = some 0`
instead of failing with `InvalidLength`; and a submit with fewer than two
pending points ends in a `TypeError` crash, not an `IncompletePoints`
error. -/
theorem infinite_length_commit_cex :
    submitOutcome [⟨0, 0⟩, ⟨100, 0⟩] JSNum.posInf = .committed 0 ∧
    (runTrace initState infinityTrace).scale = some 0 ∧
    submitOutcome [] (JSNum.fin 5) = .crash ∧
    submitOutcome [⟨1, 1⟩] (JSNum.fin 5) = .crash := by
  refine ⟨submitOutcome_posInf _ _ _, ?_, ?_, ?_⟩
  · rw [infinity_eval]; rfl
  · norm_num [submitOutcome, jsIsNaN, jsLeZero]
  · norm_num [submitOutcome, jsIsNaN, jsLeZero]

/-- C7 (amended): the submit guard rejects `NaN` and non-positive values
(including `-Infinity`) with the validation message, but `+Infinity` passes
and commits a zero scale; with fewer than two pending points a passing
length crashes with a `TypeError`; rejected and crashed submits leave the
scale unchanged. -/
theorem submit_validation (pts : List Pt) (len : JSNum) :
    (jsIsNaN len = true ∨ jsLeZero len = true → submitOutcome pts len = .invalidLength) ∧
    (2 ≤ pts.length → submitOutcome pts JSNum.posInf = .committed 0) ∧
    (pts.length ≤ 1 → jsIsNaN len = false → jsLeZero len = false →
      submitOutcome pts len = .crash) ∧
    (∀ s : AppState,
      (submitOutcome s.calibrationPoints s.realLength = .invalidLength ∨
        submitOutcome s.calibrationPoints s.realLength = .crash) →
      (step s Event.submitCalibration).scale = s.scale) := by
  refine ⟨fun h => ?_, fun h => ?_, fun h hN hL => ?_, fun s h => ?_⟩
  · rcases h with h | h <;> simp [submitOutcome, h]
  · match pts, h with
    | p1 :: p2 :: rest, _ => exact submitOutcome_posInf p1 p2 rest
  · match pts, h with
    | [], _ => simp [submitOutcome, hN, hL]
    | [p], _ => simp [submitOutcome, hN, hL]
  · simp only [step]
    rw [applyDialogEffect_scale]
    simp only [coreStep]
    by_cases hd : s.calibrationDialogOpen = true
    · rcases h with h | h <;> simp [hd, h]
    · simp [hd]

/-- Witness for C7 (amended) at concrete inputs: length -3 is rejected,
+Infinity commits 0 over the points (0,0), (100,0), a single point crashes,
and the NaN-length submit from the three-points run leaves the scale
unchanged. -/
theorem submit_validation_witness :
    submitOutcome [(⟨0, 0⟩ : Pt), ⟨100, 0⟩] (JSNum.fin (-3)) = .invalidLength ∧
    submitOutcome [(⟨0, 0⟩ : Pt), ⟨100, 0⟩] JSNum.posInf = .committed 0 ∧
    submitOutcome [(⟨2, 2⟩ : Pt)] (JSNum.fin 4) = .crash ∧
    (step sCo3 Event.submitCalibration).scale = sCo3.scale := by
  have h1 := (submit_validation [(⟨0, 0⟩ : Pt), ⟨100, 0⟩] (JSNum.fin (-3))).1
    (Or.inr (by norm_num [jsLeZero]))
  have h2 := (submit_validation [(⟨0, 0⟩ : Pt), ⟨100, 0⟩] JSNum.nan).2.1 (by norm_num)
  have h3 := (submit_validation [(⟨2, 2⟩ : Pt)] (JSNum.fin 4)).2.2.1 (by norm_num) rfl
    (by norm_num [jsLeZero])
  have hnan : jsIsNaN sCo3.realLength = true := rfl
  have h4 := (submit_validation sCo3.calibrationPoints sCo3.realLength).2.2.2 sCo3
    (Or.inl (by simp [submitOutcome, hnan]))
  exact ⟨h1, h2, h3, h4⟩
